import Mathlib

/-!
Shallow embedding of the record-repository + audit-log core of the Songs CLI
application (files `models.py`, `database.py`, `services.py`).

Modelling conventions:
- Python `datetime` timestamps are abstract instants modelled as `Nat`;
  `datetime.now(timezone.utc)` becomes an explicit `now : Nat` parameter.
- MongoDB `ObjectId` values are modelled as `String`s; `ObjectId(s)` succeeds
  exactly when `s` is a 24-character hexadecimal string (`isValidObjectId`).
- Python `str.strip()` is modelled by `pyStrip` (whitespace removed at both
  ends), written over the character list so concrete instances evaluate.
- A MongoDB document is a structure whose `Option` fields use `none` for
  "key absent from the document".
- A raised Python exception becomes an `Except`/`Option` error value; a method
  that mutates `self` and may raise is a function returning the final state
  together with the raised error, so that partially applied mutations that
  survive an exception remain observable, as they do in Python.
- Exceptions are distinguished the way the source distinguishes them: by the
  message format string at each raise site (`DatabaseError` is one Python
  class; `DbError` below records which format string built the message).
-/

/-- Model of Python `str.strip()`: remove whitespace characters from both
ends of the string. -/
def String.pyStrip (s : String) : String :=
  ⟨((s.data.dropWhile Char.isWhitespace).reverse.dropWhile
      Char.isWhitespace).reverse⟩

/-- Character class accepted by MongoDB ObjectId hex parsing. -/
def isHexChar (c : Char) : Bool :=
  c.isDigit || (('a' ≤ c) && (c ≤ 'f')) || (('A' ≤ c) && (c ≤ 'F'))

/-- Syntactic validity of a string as a MongoDB ObjectId: `ObjectId(s)` in
`bson` succeeds exactly on 24-character hexadecimal strings; otherwise it
raises `InvalidId`. -/
def isValidObjectId (s : String) : Bool :=
  s.length == 24 && s.data.all isHexChar

/-- Track record, from `models.py` `Song` (dataclass fields in source order). -/
structure Song where
  title : String
  artist : String
  username : String
  genre : Option String := none
  year : Option Int := none
  duration : Option Int := none
  created_at : Nat
  updated_at : Nat
  id : Option String := none
deriving DecidableEq, Repr

/-- Validation from `Song._validate` (models.py lines 30-45): raise order and
messages follow the source; the returned `String` is the `ValueError` message.
Python `not self.title or not self.title.strip()` is `title = "" ∨ trim = ""`;
since `"".pyStrip = ""`, each pair collapses to the trim test, but we keep the
literal disjunction. -/
def Song.validate (s : Song) : Except String Unit :=
  if s.title = "" || s.title.pyStrip = "" then
    .error "Song title cannot be empty"
  else if s.artist = "" || s.artist.pyStrip = "" then
    .error "Artist name cannot be empty"
  else if s.username = "" || s.username.pyStrip = "" then
    .error "Username cannot be empty"
  else if (match s.year with | some y => y < 1000 || y > 3000 | none => false) then
    .error "Year must be between 1000 and 3000"
  else if (match s.duration with | some d => decide (d < 0) | none => false) then
    .error "Duration cannot be negative"
  else
    .ok ()

/-- Construction of a `Song`: the dataclass initializer followed by
`__post_init__`, which runs `_validate` and lets its `ValueError` escape.
`created_at` and `updated_at` default to the current instant at the call
site, passed explicitly here. -/
def mkSong (title artist username : String) (genre : Option String)
    (year duration : Option Int) (created_at updated_at : Nat)
    (id : Option String) : Except String Song :=
  let s : Song :=
    { title := title, artist := artist, username := username, genre := genre,
      year := year, duration := duration, created_at := created_at,
      updated_at := updated_at, id := id }
  match s.validate with
  | .ok _ => .ok s
  | .error e => .error e

/-- MongoDB document for a track record (`Song.to_dict` output shape). The
five required keys are always present; `none` in an `Option` field means the
key is absent from the document. -/
structure SongDoc where
  title : String
  artist : String
  username : String
  created_at : Nat
  updated_at : Nat
  genre : Option String := none
  year : Option Int := none
  duration : Option Int := none
  id : Option String := none
deriving DecidableEq, Repr

/-- Serialization from `Song.to_dict` (models.py lines 47-67): required text
fields are stripped; `genre` is included (stripped) only when truthy, i.e.
present and not the empty string; `year`/`duration` are included when not
`None`; `_id` is included when truthy (an `ObjectId` is always truthy, so
this is exactly "when present"). -/
def Song.to_dict (s : Song) : SongDoc :=
  { title := s.title.pyStrip, artist := s.artist.pyStrip,
    username := s.username.pyStrip,
    created_at := s.created_at, updated_at := s.updated_at,
    genre := match s.genre with
      | some g => if g = "" then none else some g.pyStrip
      | none => none,
    year := s.year,
    duration := s.duration,
    id := s.id }

/-- Deserialization from `Song.from_dict` (models.py lines 69-82): reads each
key with the source's defaults and re-runs construction (hence validation,
whose `ValueError` escapes as the `String` error). -/
def Song.from_dict (d : SongDoc) : Except String Song :=
  mkSong d.title d.artist d.username d.genre d.year d.duration
    d.created_at d.updated_at d.id

/-- Partial field assignment passed to `Song.update_fields(**kwargs)`. The
callers (`cli.py` `handle_update` through `SongsService.update_song`) pass
exactly the keys `title`, `artist`, `genre`, `year`, `duration`; a `none`
field models an absent/`None` key, which `update_fields` skips. -/
structure SongUpdate where
  title : Option String := none
  artist : Option String := none
  genre : Option String := none
  year : Option Int := none
  duration : Option Int := none
deriving DecidableEq, Repr

/-- Emptiness test used by `SongsService.update_song`: the filtered
`update_data` dict is empty exactly when every supplied value is `None`. -/
def SongUpdate.isEmpty (u : SongUpdate) : Bool :=
  u.title = none && u.artist = none && u.genre = none &&
  u.year = none && u.duration = none

/-- Field update from `Song.update_fields` (models.py lines 84-91): each
supplied non-`None` value is assigned, then `updated_at` is set to now, then
`_validate` runs. The method mutates `self` before validating, so the result
is the record's state after the call (mutations applied) paired with the
`ValueError` message when validation fails, `none` on success. -/
def Song.update_fields (s : Song) (u : SongUpdate) (now : Nat) :
    Song × Option String :=
  let s1 : Song :=
    { s with
      title := u.title.getD s.title,
      artist := u.artist.getD s.artist,
      genre := match u.genre with | some g => some g | none => s.genre,
      year := match u.year with | some y => some y | none => s.year,
      duration := match u.duration with | some d => some d | none => s.duration }
  let s2 : Song := { s1 with updated_at := now }
  match s2.validate with
  | .ok _ => (s2, none)
  | .error e => (s2, some e)

/-- Audit entry, from `models.py` `HistoryEntry`. -/
structure HistoryEntry where
  username : String
  action : String
  song_title : String
  song_artist : String
  timestamp : Nat
  id : Option String := none
deriving DecidableEq, Repr

/-- Validation from `HistoryEntry._validate`: `username` and `action` must be
non-empty after stripping; an action outside the fixed set is only logged as
unusual, never rejected. -/
def HistoryEntry.validate (e : HistoryEntry) : Except String Unit :=
  if e.username = "" || e.username.pyStrip = "" then
    .error "Username cannot be empty"
  else if e.action = "" || e.action.pyStrip = "" then
    .error "Action cannot be empty"
  else
    .ok ()

/-- Construction of a `HistoryEntry` (initializer plus `__post_init__`
validation); `timestamp` defaults to the current instant, passed explicitly. -/
def mkHistoryEntry (username action song_title song_artist : String)
    (timestamp : Nat) : Except String HistoryEntry :=
  let e : HistoryEntry :=
    { username := username, action := action, song_title := song_title,
      song_artist := song_artist, timestamp := timestamp, id := none }
  match e.validate with
  | .ok _ => .ok e
  | .error err => .error err

/-- MongoDB document for an audit entry (`HistoryEntry.to_dict` shape). -/
structure HistoryDoc where
  username : String
  action : String
  song_title : String
  song_artist : String
  timestamp : Nat
  id : Option String := none
deriving DecidableEq, Repr

/-- Serialization from `HistoryEntry.to_dict` (models.py lines 119-132):
all four text fields are stripped; `_id` included when present. -/
def HistoryEntry.to_dict (e : HistoryEntry) : HistoryDoc :=
  { username := e.username.pyStrip, action := e.action.pyStrip,
    song_title := e.song_title.pyStrip, song_artist := e.song_artist.pyStrip,
    timestamp := e.timestamp, id := e.id }

/-!
Database layer, from `database.py` `SongsDatabase`. All errors in the source
are one Python class `DatabaseError`, distinguished only by the message each
raise site formats; `DbError` keeps one constructor per message format so the
observable message is recoverable via `DbError.msg`. Connection lifecycle
(`connect`/`close`/`_ensure_connected`) is not exercised by the properties
below; operations are modelled in the connected state, acting on the songs
collection as a list of documents in insertion order.
-/

/-- Database error: `invalidIdFormat i` is the `DatabaseError` raised as
"Invalid song ID format: {i}" from an `InvalidId` handler; `storeError m` is
any other `DatabaseError(m)`. -/
inductive DbError where
  | invalidIdFormat (id : String)
  | storeError (msg : String)
deriving DecidableEq, Repr

/-- Message carried by the Python `DatabaseError` exception. -/
def DbError.msg : DbError → String
  | .invalidIdFormat i => "Invalid song ID format: " ++ i
  | .storeError m => m

/-- Songs collection state: documents in insertion order. -/
abbrev Store := List SongDoc

/-- MongoDB `find_one({"_id": ObjectId(song_id), "username": username})`:
first document matching both keys. -/
def findDoc (st : Store) (song_id username : String) : Option SongDoc :=
  st.find? (fun d => d.id == some song_id && d.username == username)

/-- Effect of `update_one(filter, {"$set": patch})` on the matched document:
every key present in `patch` is set; keys absent from `patch` keep their
stored values (`$set` never removes a key). -/
def applySet (old patch : SongDoc) : SongDoc :=
  { title := patch.title, artist := patch.artist, username := patch.username,
    created_at := patch.created_at, updated_at := patch.updated_at,
    genre := match patch.genre with | some g => some g | none => old.genre,
    year := match patch.year with | some y => some y | none => old.year,
    duration := match patch.duration with | some d => some d | none => old.duration,
    id := match patch.id with | some i => some i | none => old.id }

/-- Replace the first document matching `{_id, username}` with `newDoc`
(the store effect of a matched `update_one`). -/
def replaceDoc : Store → String → String → SongDoc → Store
  | [], _, _, _ => []
  | d :: ds, song_id, username, newDoc =>
    if d.id == some song_id && d.username == username then newDoc :: ds
    else d :: replaceDoc ds song_id username newDoc

/-- Remove the first document matching `{_id, username}` (the store effect of
`delete_one`). -/
def removeFirstDoc : Store → String → String → Store
  | [], _, _ => []
  | d :: ds, song_id, username =>
    if d.id == some song_id && d.username == username then ds
    else d :: removeFirstDoc ds song_id username

/-- Stable insertion of a document into a list sorted by `created_at`
descending. -/
def insertDesc (d : SongDoc) : List SongDoc → List SongDoc
  | [] => [d]
  | e :: es => if e.created_at < d.created_at then d :: e :: es
               else e :: insertDesc d es

/-- Stable sort by `created_at` descending, modelling the cursor
`.sort("created_at", -1)`. -/
def sortByCreatedDesc : List SongDoc → List SongDoc
  | [] => []
  | d :: ds => insertDesc d (sortByCreatedDesc ds)

/-- Read operation from `SongsDatabase.get_song_by_id` (database.py lines
162-181): an id failing ObjectId parsing raises the invalid-format
`DatabaseError`; a found document is deserialized (a `ValueError` from
`from_dict` is caught by the broad handler and re-raised as
`DatabaseError("Failed to get song: ...")`); no match returns `None`. -/
def SongsDatabase.get_song_by_id (st : Store) (username song_id : String) :
    Except DbError (Option Song) :=
  if isValidObjectId song_id then
    match findDoc st song_id username with
    | none => .ok none
    | some d =>
      match Song.from_dict d with
      | .ok s => .ok (some s)
      | .error e => .error (.storeError ("Failed to get song: " ++ e))
  else
    .error (.invalidIdFormat song_id)

/-- Update operation from `SongsDatabase.update_song` (database.py lines
183-209), returning the store state after the call and the result. The inner
`get_song_by_id` raises `DatabaseError`, not `InvalidId`, so its failure is
caught by the broad `except Exception` handler and re-wrapped as
`DatabaseError("Failed to update song: ...")`; likewise the `ValueError`
raised by `update_fields`. On the success path `update_one` sets the full
serialized record and the method returns `modified_count > 0`, i.e. whether
the stored document actually changed. -/
def SongsDatabase.update_song (st : Store) (username song_id : String)
    (u : SongUpdate) (now : Nat) : Store × Except DbError Bool :=
  match SongsDatabase.get_song_by_id st username song_id with
  | .error e =>
    (st, .error (.storeError ("Failed to update song: " ++ e.msg)))
  | .ok none => (st, .ok false)
  | .ok (some song) =>
    match Song.update_fields song u now with
    | (_, some e) =>
      (st, .error (.storeError ("Failed to update song: " ++ e)))
    | (song2, none) =>
      match findDoc st song_id username with
      | none => (st, .ok false)
      | some old =>
        let newDoc := applySet old song2.to_dict
        (replaceDoc st song_id username newDoc, .ok (newDoc ≠ old))

/-- Delete operation from `SongsDatabase.delete_song` (database.py lines
211-236): loads the record scoped to the owner (absent ⇒ `None`, store
untouched), then `delete_one` keyed by both `_id` and `username`; returns the
pre-delete snapshot when `deleted_count > 0`. A failing inner load is
re-wrapped by the broad handler as "Failed to delete song: ...". -/
def SongsDatabase.delete_song (st : Store) (username song_id : String) :
    Store × Except DbError (Option Song) :=
  match SongsDatabase.get_song_by_id st username song_id with
  | .error e =>
    (st, .error (.storeError ("Failed to delete song: " ++ e.msg)))
  | .ok none => (st, .ok none)
  | .ok (some song) =>
    let deleted := (findDoc st song_id username).isSome
    (removeFirstDoc st song_id username,
     .ok (if deleted then some song else none))

/-- Deserialization loop shared by the query operations: `for song_data in
cursor: songs.append(Song.from_dict(song_data))`, where the first
`ValueError` escapes and aborts the loop. -/
def fromDictList : List SongDoc → Except String (List Song)
  | [] => .ok []
  | d :: ds =>
    match Song.from_dict d with
    | .error e => .error e
    | .ok s =>
      match fromDictList ds with
      | .error e => .error e
      | .ok ss => .ok (s :: ss)

/-- List operation from `SongsDatabase.get_songs` (database.py lines
116-137): the owner filter is applied only when `username` is truthy (a
supplied empty string filters nothing, exactly like `None`); results are
sorted by `created_at` descending; `cursor.limit` is applied only when
`limit` is truthy (`0` is falsy); each document is deserialized, a
`ValueError` being re-raised as `DatabaseError("Failed to get songs: ...")`. -/
def SongsDatabase.get_songs (st : Store) (username : Option String)
    (limit : Option Nat) : Except DbError (List Song) :=
  let filtered : Store :=
    match username with
    | some u => if u = "" then st else st.filter (fun d => d.username == u)
    | none => st
  let sorted := sortByCreatedDesc filtered
  let limited :=
    match limit with
    | some l => if l = 0 then sorted else sorted.take l
    | none => sorted
  match fromDictList limited with
  | .ok songs => .ok songs
  | .error e => .error (.storeError ("Failed to get songs: " ++ e))

/-!
Service layer, from `services.py`. Each use-case opens a `DatabaseManager`
(modelled as an always-successful connect), performs its primary repository
operation, and on a meaningful success logs an audit entry through
`_log_history`, which swallows every failure. `DB` is the backing state the
services act on: the songs collection, the history collection, and a flag
simulating a store fault on history inserts (the "simulated store fault" of
the audit-failure property). Service errors mirror the source's re-raise
sites: `ValueError` and `DatabaseError` with the wrapped messages. -/

/-- Backing state threaded through the services. `historyFault` simulates a
persistence fault on `history_collection.insert_one`. -/
structure DB where
  songs : Store
  history : List HistoryDoc
  historyFault : Bool
deriving DecidableEq, Repr

/-- Service-level exception: `valueError m` is a raised `ValueError(m)`,
`dbError m` a raised `DatabaseError(m)`. -/
inductive SvcError where
  | valueError (msg : String)
  | dbError (msg : String)
deriving DecidableEq, Repr

/-- History insert from `SongsDatabase.add_history_entry` (database.py lines
238-254): inserts the entry's document form, or raises
`DatabaseError("Failed to add history entry: ...")` on the simulated fault,
leaving the store unchanged. -/
def SongsDatabase.add_history_entry (db : DB) (e : HistoryEntry) :
    DB × Except DbError Unit :=
  if db.historyFault then
    (db, .error (.storeError "Failed to add history entry: simulated store fault"))
  else
    ({ db with history := db.history ++ [e.to_dict] }, .ok ())

/-- Audit append from `SongsService._log_history` (services.py lines
176-190): builds a `HistoryEntry` and inserts it; every exception (entry
validation or insert fault) is caught and only logged, so the function
always returns normally with the state it reached. -/
def SongsService.log_history (db : DB) (username action title artist : String)
    (now : Nat) : DB :=
  match mkHistoryEntry username action title artist now with
  | .error _ => db
  | .ok e =>
    match SongsDatabase.add_history_entry db e with
    | (_, .error _) => db
    | (db2, .ok _) => db2

/-- Add use-case from `SongsService.add_song` (services.py lines 17-50):
constructs the record (a `ValueError` is re-raised as
"Invalid song data: ..."), inserts its document form (the store assigns the
identifier, passed here as `newId`), logs "added" with the raw `title` and
`artist` arguments, and returns `True`. -/
def SongsService.add_song (db : DB) (username title artist : String)
    (genre : Option String) (year duration : Option Int) (now : Nat)
    (newId : String) : DB × Except SvcError Bool :=
  match mkSong title artist username genre year duration now now none with
  | .error e => (db, .error (.valueError ("Invalid song data: " ++ e)))
  | .ok song =>
    let doc : SongDoc := { song.to_dict with id := some newId }
    let db1 : DB := { db with songs := db.songs ++ [doc] }
    let db2 := SongsService.log_history db1 username "added" title artist now
    (db2, .ok true)

/-- View use-case from `SongsService.get_song` (services.py lines 88-103):
looks the record up scoped to the owner; when found, logs "viewed" with the
record's title and artist and returns it; a `DatabaseError` is re-raised as
"Failed to get song: ...". -/
def SongsService.get_song (db : DB) (username song_id : String) (now : Nat) :
    DB × Except SvcError (Option Song) :=
  match SongsDatabase.get_song_by_id db.songs username song_id with
  | .error e => (db, .error (.dbError ("Failed to get song: " ++ e.msg)))
  | .ok none => (db, .ok none)
  | .ok (some song) =>
    (SongsService.log_history db username "viewed" song.title song.artist now,
     .ok (some song))

/-- Update use-case from `SongsService.update_song` (services.py lines
105-138): rejects an empty field set with
`ValueError("Invalid update: No update data provided")`; fetches the
original record for the audit snapshot (not-found ⇒ `False`); runs the
repository update; on a `True` result logs "updated" with the ORIGINAL
record's title and artist; `DatabaseError` is re-raised as
"Failed to update song: ...". -/
def SongsService.update_song (db : DB) (username song_id : String)
    (u : SongUpdate) (now : Nat) : DB × Except SvcError Bool :=
  if u.isEmpty then
    (db, .error (.valueError "Invalid update: No update data provided"))
  else
    match SongsDatabase.get_song_by_id db.songs username song_id with
    | .error e => (db, .error (.dbError ("Failed to update song: " ++ e.msg)))
    | .ok none => (db, .ok false)
    | .ok (some original) =>
      match SongsDatabase.update_song db.songs username song_id u now with
      | (st2, .error e) =>
        ({ db with songs := st2 },
         .error (.dbError ("Failed to update song: " ++ e.msg)))
      | (st2, .ok success) =>
        let db1 : DB := { db with songs := st2 }
        if success then
          (SongsService.log_history db1 username "updated"
            original.title original.artist now, .ok true)
        else
          (db1, .ok false)

/-- Delete use-case from `SongsService.delete_song` (services.py lines
140-159): runs the repository delete; on a returned snapshot logs "deleted"
with the snapshot's title and artist and returns `True`, else `False`;
`DatabaseError` is re-raised as "Failed to delete song: ...". -/
def SongsService.delete_song (db : DB) (username song_id : String)
    (now : Nat) : DB × Except SvcError Bool :=
  match SongsDatabase.delete_song db.songs username song_id with
  | (st2, .error e) =>
    ({ db with songs := st2 },
     .error (.dbError ("Failed to delete song: " ++ e.msg)))
  | (st2, .ok none) => ({ db with songs := st2 }, .ok false)
  | (st2, .ok (some song)) =>
    (SongsService.log_history { db with songs := st2 } username "deleted"
      song.title song.artist now, .ok true)

/-- Play use-case from `PlaybackService.play_song` (services.py lines
195-213): fetches the record via the view use-case, logs "played" when
found, and returns `True`/`False`; the enclosing `except Exception` handler
turns EVERY raised failure into a plain `return False`. -/
def PlaybackService.play_song (db : DB) (username song_id : String)
    (now : Nat) : DB × Except SvcError Bool :=
  match SongsService.get_song db username song_id now with
  | (db2, .error _) => (db2, .ok false)
  | (db2, .ok none) => (db2, .ok false)
  | (db2, .ok (some song)) =>
    (SongsService.log_history db2 username "played" song.title song.artist now,
     .ok true)

/-!
Shared concrete fixtures used by witnesses and counterexamples, and helper
lemmas about the embedded operations.
-/

/-- A syntactically valid ObjectId string. -/
def vId1 : String := "0123456789abcdef01234567"

/-- A second valid ObjectId string, distinct from `vId1`. -/
def vId2 : String := "0123456789abcdef01234568"

/-- A minimal valid in-memory record (not yet persisted). -/
def songA : Song :=
  { title := "a", artist := "b", username := "u",
    created_at := 0, updated_at := 0 }

/-- A persisted document for owner "u" under identifier `vId1`. -/
def docA : SongDoc :=
  { title := "a", artist := "b", username := "u",
    created_at := 0, updated_at := 0, id := some vId1 }

/-- A persisted document for owner "bob" under identifier `vId1`. -/
def docB : SongDoc :=
  { title := "c", artist := "d", username := "bob",
    created_at := 0, updated_at := 0, id := some vId1 }

/-- Audit logging never touches the songs collection. -/
theorem log_history_songs (db : DB) (u a t ar : String) (now : Nat) :
    (SongsService.log_history db u a t ar now).songs = db.songs := by
  unfold SongsService.log_history SongsDatabase.add_history_entry
  cases mkHistoryEntry u a t ar now with
  | error e => rfl
  | ok e =>
    cases hf : db.historyFault with
    | true => simp [hf]
    | false => simp [hf]

/-- Audit logging never changes the fault flag. -/
theorem log_history_fault (db : DB) (u a t ar : String) (now : Nat) :
    (SongsService.log_history db u a t ar now).historyFault = db.historyFault := by
  unfold SongsService.log_history SongsDatabase.add_history_entry
  cases mkHistoryEntry u a t ar now with
  | error e => rfl
  | ok e =>
    cases hf : db.historyFault with
    | true => simp [hf]
    | false => simp [hf]

/-- When the entry is valid and no fault is injected, audit logging appends
exactly the entry's document form. -/
theorem log_history_append (db : DB) (u a t ar : String) (now : Nat)
    (e : HistoryEntry) (hm : mkHistoryEntry u a t ar now = .ok e)
    (hf : db.historyFault = false) :
    (SongsService.log_history db u a t ar now).history =
      db.history ++ [e.to_dict] := by
  unfold SongsService.log_history SongsDatabase.add_history_entry
  rw [hm]
  simp [hf]

/-- A store in which no document carries both the identifier and the owner
yields no match. -/
theorem findDoc_eq_none (st : Store) (sid un : String)
    (h : ∀ d ∈ st, ¬(d.id = some sid ∧ d.username = un)) :
    findDoc st sid un = none := by
  unfold findDoc
  rw [List.find?_eq_none]
  intro d hd
  have hne := h d hd
  simp only [Bool.and_eq_true, beq_iff_eq]
  intro hc
  exact hne ⟨hc.1, hc.2⟩

/-- Replacing the first matched document gives back the same store exactly
when the replacement equals the matched document. -/
theorem replaceDoc_eq_self_iff (st : Store) (sid un : String)
    (old newDoc : SongDoc) (h : findDoc st sid un = some old) :
    (replaceDoc st sid un newDoc = st ↔ newDoc = old) := by
  induction st with
  | nil => simp [findDoc] at h
  | cons d ds ih =>
    by_cases hp : (d.id == some sid && d.username == un) = true
    · have hd : findDoc (d :: ds) sid un = some d := by
        unfold findDoc
        exact List.find?_cons_of_pos _ hp
      rw [hd] at h
      cases h
      unfold replaceDoc
      rw [if_pos hp]
      simp [List.cons_eq_cons]
    · have hd : findDoc (d :: ds) sid un = findDoc ds sid un := by
        unfold findDoc
        exact List.find?_cons_of_neg _ hp
      rw [hd] at h
      unfold replaceDoc
      rw [if_neg hp]
      simp only [List.cons_eq_cons, true_and]
      exact ih h

/-- Membership after insertion: an element of the inserted list is the new
document or one of the old ones. -/
theorem insertDesc_mem (d : SongDoc) (l : List SongDoc) (x : SongDoc)
    (hx : x ∈ insertDesc d l) : x = d ∨ x ∈ l := by
  induction l with
  | nil => simpa [insertDesc] using hx
  | cons e es ih =>
    unfold insertDesc at hx
    by_cases hc : e.created_at < d.created_at
    · rw [if_pos hc] at hx
      rcases List.mem_cons.mp hx with hx | hx
      · exact Or.inl hx
      · exact Or.inr hx
    · rw [if_neg hc] at hx
      rcases List.mem_cons.mp hx with hx | hx
      · exact Or.inr (List.mem_cons.mpr (Or.inl hx))
      · rcases ih hx with hx | hx
        · exact Or.inl hx
        · exact Or.inr (List.mem_cons_of_mem _ hx)

/-- Insertion preserves the sorted-by-`created_at`-descending invariant. -/
theorem insertDesc_pairwise (d : SongDoc) (l : List SongDoc)
    (h : l.Pairwise (fun a b => b.created_at ≤ a.created_at)) :
    (insertDesc d l).Pairwise (fun a b => b.created_at ≤ a.created_at) := by
  induction l with
  | nil => simp [insertDesc]
  | cons e es ih =>
    rcases List.pairwise_cons.mp h with ⟨he, hes⟩
    unfold insertDesc
    by_cases hc : e.created_at < d.created_at
    · rw [if_pos hc]
      refine List.pairwise_cons.mpr ⟨?_, h⟩
      intro x hx
      rcases List.mem_cons.mp hx with hx | hx
      · rw [hx]; exact Nat.le_of_lt hc
      · exact Nat.le_trans (he x hx) (Nat.le_of_lt hc)
    · rw [if_neg hc]
      refine List.pairwise_cons.mpr ⟨?_, ih hes⟩
      intro x hx
      rcases insertDesc_mem d es x hx with hx | hx
      · rw [hx]; exact Nat.le_of_not_lt hc
      · exact he x hx

/-- The sorted view of the store is sorted by `created_at` descending. -/
theorem sortByCreatedDesc_pairwise (l : List SongDoc) :
    (sortByCreatedDesc l).Pairwise (fun a b => b.created_at ≤ a.created_at) := by
  induction l with
  | nil => simp [sortByCreatedDesc]
  | cons d ds ih => exact insertDesc_pairwise d _ ih

/-- Insertion grows the list by one element. -/
theorem insertDesc_length (d : SongDoc) (l : List SongDoc) :
    (insertDesc d l).length = l.length + 1 := by
  induction l with
  | nil => rfl
  | cons e es ih =>
    unfold insertDesc
    by_cases hc : e.created_at < d.created_at
    · rw [if_pos hc]; rfl
    · rw [if_neg hc]; simp [ih]

/-- Sorting preserves the number of documents. -/
theorem sortByCreatedDesc_length (l : List SongDoc) :
    (sortByCreatedDesc l).length = l.length := by
  induction l with
  | nil => rfl
  | cons d ds ih => simp [sortByCreatedDesc, insertDesc_length, ih]

/-- A record deserialized from a document keeps the document's
`created_at`. -/
theorem from_dict_created (d : SongDoc) (s : Song)
    (h : Song.from_dict d = .ok s) : s.created_at = d.created_at := by
  unfold Song.from_dict mkSong at h
  dsimp only [] at h
  split at h
  · cases h; rfl
  · cases h

/-- Successful bulk deserialization preserves the documents' `created_at`
sequence. -/
theorem fromDictList_created (docs : List SongDoc) (l : List Song)
    (h : fromDictList docs = .ok l) :
    l.map (fun s => s.created_at) = docs.map (fun d => d.created_at) := by
  induction docs generalizing l with
  | nil =>
    unfold fromDictList at h
    cases h
    rfl
  | cons d ds ih =>
    unfold fromDictList at h
    cases hd : Song.from_dict d with
    | error e => rw [hd] at h; cases h
    | ok s =>
      rw [hd] at h
      cases hds : fromDictList ds with
      | error e => rw [hds] at h; cases h
      | ok ss =>
        rw [hds] at h
        cases h
        simp [ih ss hds, from_dict_created d s hd]

/-- Stripping the empty string yields the empty string. -/
theorem pyStrip_empty : ("" : String).pyStrip = "" := rfl

/-- The source's emptiness guard `not x or not x.strip()` fires exactly when
the stripped string is empty. -/
theorem emptyGuard_iff (t : String) :
    (t = "" || t.pyStrip = "") = true ↔ t.pyStrip = "" := by
  simp only [Bool.or_eq_true, decide_eq_true_eq]
  constructor
  · rintro (h | h)
    · rw [h]; exact pyStrip_empty
    · exact h
  · exact fun h => Or.inr h

/-- Characterization of record validation: `_validate` accepts exactly the
records whose stripped `title`, `artist`, `username` are non-empty, whose
`year` (when present) lies in [1000, 3000], and whose `duration` (when
present) is non-negative. No condition relates `updated_at` to
`created_at`. -/
theorem validate_ok_iff (s : Song) :
    s.validate = .ok () ↔
    (s.title.pyStrip ≠ "" ∧ s.artist.pyStrip ≠ "" ∧ s.username.pyStrip ≠ "" ∧
     (∀ y, s.year = some y → 1000 ≤ y ∧ y ≤ 3000) ∧
     (∀ dv, s.duration = some dv → 0 ≤ dv)) := by
  unfold Song.validate
  split_ifs with h1 h2 h3 h4 h5
  · have ht := (emptyGuard_iff _).mp h1
    simp [ht]
  · have ha := (emptyGuard_iff _).mp h2
    simp [ha]
  · have hu := (emptyGuard_iff _).mp h3
    simp [hu]
  · refine iff_of_false (by simp) ?_
    rintro ⟨-, -, -, hyr, -⟩
    rcases hy : s.year with _ | y
    · rw [hy] at h4; cases h4
    · rw [hy] at h4
      simp only [Bool.or_eq_true, decide_eq_true_eq] at h4
      rcases hyr y hy with ⟨hl, hr⟩
      rcases h4 with h4 | h4 <;> omega
  · refine iff_of_false (by simp) ?_
    rintro ⟨-, -, -, -, hdr⟩
    rcases hd : s.duration with _ | dv
    · rw [hd] at h5; cases h5
    · rw [hd] at h5
      simp only [decide_eq_true_eq] at h5
      have := hdr dv hd
      omega
  · refine iff_of_true rfl ?_
    refine ⟨fun hh => h1 ((emptyGuard_iff _).mpr hh),
            fun hh => h2 ((emptyGuard_iff _).mpr hh),
            fun hh => h3 ((emptyGuard_iff _).mpr hh), ?_, ?_⟩
    · intro y hy
      rw [hy] at h4
      simp only [Bool.or_eq_true, decide_eq_true_eq, not_or, not_lt] at h4
      rcases h4 with ⟨hl, hr⟩
      omega
    · intro dv hd
      rw [hd] at h5
      simp only [decide_eq_true_eq, not_lt] at h5
      omega

/-- Construction succeeds exactly when validation of the assembled record
accepts. -/
theorem mkSong_ok_iff (title artist username : String) (genre : Option String)
    (year duration : Option Int) (created_at updated_at : Nat)
    (id : Option String) :
    (∃ s, mkSong title artist username genre year duration
        created_at updated_at id = .ok s) ↔
    Song.validate
      { title := title, artist := artist, username := username,
        genre := genre, year := year, duration := duration,
        created_at := created_at, updated_at := updated_at,
        id := id } = .ok () := by
  unfold mkSong
  dsimp only []
  cases hv : Song.validate
      { title := title, artist := artist, username := username,
        genre := genre, year := year, duration := duration,
        created_at := created_at, updated_at := updated_at, id := id } with
  | ok u =>
    cases u
    simp
  | error e =>
    simp

/-- A valid record whose title carries surrounding whitespace. -/
def songPad : Song :=
  { title := " a ", artist := "b", username := "u",
    created_at := 0, updated_at := 0 }

/-- The record read back from `docA` (identifier included). -/
def songAView : Song :=
  { title := "a", artist := "b", username := "u",
    created_at := 0, updated_at := 0, id := some vId1 }

/-- A persisted document for a second owner with a later creation time. -/
def docC : SongDoc :=
  { title := "e", artist := "f", username := "w",
    created_at := 5, updated_at := 5, id := some vId2 }

/-- The record read back from `docC`. -/
def songCView : Song :=
  { title := "e", artist := "f", username := "w",
    created_at := 5, updated_at := 5, id := some vId2 }

/-- Claim C1, as stated, is false on the code: applying a partial assignment
`{title := "new", year := 5000}` to a valid record raises the year
`ValueError`, yet the record observed after the call has the new title, the
out-of-range year, and a refreshed `updated_at` — `update_fields` assigns
the fields and bumps `updated_at` before it validates, so the in-memory
record does not stay as it was. -/
theorem update_fields_failure_mutates_record :
    (Song.update_fields songA { title := some "new", year := some 5000 } 1).2 =
      some "Year must be between 1000 and 3000" ∧
    (Song.update_fields songA { title := some "new", year := some 5000 } 1).1 ≠
      songA ∧
    (Song.update_fields songA { title := some "new", year := some 5000 } 1).1.title =
      "new" ∧
    (Song.update_fields songA { title := some "new", year := some 5000 } 1).1.updated_at
      = 1 := by
  refine ⟨rfl, ?_, rfl, rfl⟩
  intro h
  have : ("new" : String) = "a" := congrArg Song.title h
  simp at this

/-- Claim C1 amended: when a partial assignment violates a §3 invariant the
update raises the `ValueError`, the in-memory record retains the applied
assignments and the refreshed `updated_at` (non-atomic in memory), but the
repository-level `update_song` propagates the failure before writing, so on
every failing call the persisted store is exactly as before. -/
theorem update_failure_leaves_store_unchanged :
    ∀ (st : Store) (username song_id : String) (u : SongUpdate) (now : Nat)
      (s : Song),
    (∀ e, (SongsDatabase.update_song st username song_id u now).2 = .error e →
      (SongsDatabase.update_song st username song_id u now).1 = st) ∧
    ((Song.update_fields s u now).1.title = u.title.getD s.title ∧
     (Song.update_fields s u now).1.artist = u.artist.getD s.artist ∧
     (Song.update_fields s u now).1.year =
       (match u.year with | some y => some y | none => s.year) ∧
     (Song.update_fields s u now).1.updated_at = now) := by
  intro st username song_id u now s
  constructor
  · intro e h
    cases hg : SongsDatabase.get_song_by_id st username song_id with
    | error e2 => simp only [SongsDatabase.update_song, hg]
    | ok o =>
      cases o with
      | none => simp only [SongsDatabase.update_song, hg]
      | some song =>
        cases hf : Song.update_fields song u now with
        | mk s2 err =>
          cases err with
          | some e2 => simp only [SongsDatabase.update_song, hg, hf]
          | none =>
            cases hd : findDoc st song_id username with
            | none => simp only [SongsDatabase.update_song, hg, hf, hd]
            | some old =>
              simp only [SongsDatabase.update_song, hg, hf, hd] at h
              simp at h
  · unfold Song.update_fields
    cases hv : Song.validate
        { title := u.title.getD s.title, artist := u.artist.getD s.artist,
          username := s.username,
          genre := match u.genre with | some g => some g | none => s.genre,
          year := match u.year with | some y => some y | none => s.year,
          duration := match u.duration with | some dv => some dv | none => s.duration,
          created_at := s.created_at, updated_at := now, id := s.id } with
    | ok v => simp [hv]
    | error e => simp [hv]

/-- Witness for the amended C1 at a concrete input: updating `docA` with an
out-of-range year leaves the one-document store unchanged, while the
in-memory record's `updated_at` is refreshed to the call time. -/
theorem update_failure_leaves_store_unchanged_witness :
    (SongsDatabase.update_song [docA] "u" vId1
        { title := some "new", year := some 5000 } 1).1 = [docA] ∧
    (Song.update_fields songA { title := some "new", year := some 5000 } 1).1.updated_at
      = 1 := by
  have h := update_failure_leaves_store_unchanged [docA] "u" vId1
    { title := some "new", year := some 5000 } 1 songA
  exact ⟨h.1 (DbError.storeError
    ("Failed to update song: " ++ "Year must be between 1000 and 3000")) rfl,
    h.2.2.2.2⟩

/-- Claim C2's no-op clause is false on the code: supplying a title equal to
the record's current title still returns `true`, because `update_fields`
refreshes `updated_at`, so the rewritten document differs from the stored
one whenever the call time differs from the stored `updated_at`. -/
theorem noop_update_returns_true :
    ({ title := some "a" } : SongUpdate).title = some docA.title ∧
    (SongsDatabase.update_song [docA] "u" vId1 { title := some "a" } 1).2 =
      .ok true := ⟨rfl, rfl⟩

/-- Claim C2 amended: `update` returns `true` exactly when the store was
actually modified, i.e. when the rewritten document (refreshed `updatedAt`
included) differs from the stored one; since `updatedAt` is always
refreshed, an update with fields identical to current values still returns
`true` whenever the call time differs from the stored `updatedAt`, and
`false` only when the rewritten document coincides with the stored one. -/
theorem update_true_iff_store_modified :
    ∀ (st : Store) (username song_id : String) (u : SongUpdate) (now : Nat)
      (b : Bool),
    (SongsDatabase.update_song st username song_id u now).2 = .ok b →
    (b = true ↔ (SongsDatabase.update_song st username song_id u now).1 ≠ st) := by
  intro st username song_id u now b h
  cases hg : SongsDatabase.get_song_by_id st username song_id with
  | error e2 =>
    simp only [SongsDatabase.update_song, hg] at h
    simp at h
  | ok o =>
    cases o with
    | none =>
      simp only [SongsDatabase.update_song, hg] at h ⊢
      injection h with hb
      subst hb
      simp
    | some song =>
      cases hf : Song.update_fields song u now with
      | mk s2 err =>
        cases err with
        | some e2 =>
          simp only [SongsDatabase.update_song, hg, hf] at h
          simp at h
        | none =>
          cases hd : findDoc st song_id username with
          | none =>
            simp only [SongsDatabase.update_song, hg, hf, hd] at h ⊢
            injection h with hb
            subst hb
            simp
          | some old =>
            simp only [SongsDatabase.update_song, hg, hf, hd] at h ⊢
            injection h with hb
            subst hb
            rw [decide_eq_true_eq]
            exact not_congr (replaceDoc_eq_self_iff st song_id username old
              (applySet old s2.to_dict) hd).symm

/-- Witness for the amended C2 at a concrete input: the no-op field update on
`docA` at a later instant modifies the stored document, so the returned
`true` coincides with "the store changed". -/
theorem update_true_iff_store_modified_witness :
    (true = true ↔
      (SongsDatabase.update_song [docA] "u" vId1 { title := some "a" } 1).1 ≠
        [docA]) :=
  update_true_iff_store_modified [docA] "u" vId1 { title := some "a" } 1 true rfl

/-- Claim C3 confirmed: for distinct owners A and B and a record persisted
under B with identifier i (identifiers being unique in the store), both
`get_song_by_id` and `delete_song` called by A on i behave exactly as they
do on an identifier j that exists under no owner — `None` is returned, the
store is untouched, and B's document is still present afterwards. -/
theorem owner_isolation :
    ∀ (st : Store) (A B i j : String) (d : SongDoc),
    isValidObjectId i = true → isValidObjectId j = true →
    A ≠ B → d ∈ st → d.id = some i → d.username = B →
    (∀ d2 ∈ st, d2.id = some i → d2 = d) →
    (∀ d2 ∈ st, d2.id ≠ some j) →
    SongsDatabase.get_song_by_id st A i = SongsDatabase.get_song_by_id st A j ∧
    SongsDatabase.get_song_by_id st A i = .ok none ∧
    SongsDatabase.delete_song st A i = (st, .ok none) ∧
    SongsDatabase.delete_song st A j = (st, .ok none) ∧
    d ∈ (SongsDatabase.delete_song st A i).1 := by
  intro st A B i j d hvi hvj hAB hmem hid hun huniq hj
  have hfi : findDoc st i A = none := by
    apply findDoc_eq_none
    intro d2 hd2 hc
    have hd2d : d2 = d := huniq d2 hd2 hc.1
    rw [hd2d] at hc
    exact hAB (hc.2.symm.trans hun)
  have hfj : findDoc st j A = none := by
    apply findDoc_eq_none
    intro d2 hd2 hc
    exact hj d2 hd2 hc.1
  have hgi : SongsDatabase.get_song_by_id st A i = .ok none := by
    simp only [SongsDatabase.get_song_by_id, hvi, hfi, if_true]
  have hgj : SongsDatabase.get_song_by_id st A j = .ok none := by
    simp only [SongsDatabase.get_song_by_id, hvj, hfj, if_true]
  have hdi : SongsDatabase.delete_song st A i = (st, .ok none) := by
    simp only [SongsDatabase.delete_song, hgi]
  have hdj : SongsDatabase.delete_song st A j = (st, .ok none) := by
    simp only [SongsDatabase.delete_song, hgj]
  refine ⟨hgi.trans hgj.symm, hgi, hdi, hdj, ?_⟩
  rw [hdi]
  exact hmem

/-- Witness for C3 at a concrete input: owner "u" probing `docB` (owned by
"bob") under its real identifier gets `None` and deletes nothing. -/
theorem owner_isolation_witness :
    SongsDatabase.get_song_by_id [docB] "u" vId1 = .ok none ∧
    SongsDatabase.delete_song [docB] "u" vId1 = ([docB], .ok none) := by
  have huniq : ∀ d2 ∈ [docB], d2.id = some vId1 → d2 = docB := by
    intro d2 hd2 _
    simpa using hd2
  have hj : ∀ d2 ∈ [docB], d2.id ≠ some vId2 := by
    intro d2 hd2
    have hd2d : d2 = docB := by simpa using hd2
    rw [hd2d]
    decide
  have h := owner_isolation [docB] "u" "bob" vId1 vId2 docB (by decide) (by decide)
    (by decide) (by simp) rfl rfl huniq hj
  exact ⟨h.2.1, h.2.2.1⟩

/-- Claim C4 confirmed: injecting an audit-append fault changes no use-case's
returned result — for add, update, delete, view (get) and play, the value
returned with the fault present equals the value returned without it, so a
failing audit append after a successful primary operation is invisible in
the return value. -/
theorem audit_append_failure_swallowed :
    ∀ (db : DB) (username title artist song_id : String) (genre : Option String)
      (year duration : Option Int) (u : SongUpdate) (now : Nat) (newId : String),
    ((SongsService.add_song { db with historyFault := true } username title
        artist genre year duration now newId).2 =
      (SongsService.add_song { db with historyFault := false } username title
        artist genre year duration now newId).2) ∧
    ((SongsService.update_song { db with historyFault := true } username song_id
        u now).2 =
      (SongsService.update_song { db with historyFault := false } username
        song_id u now).2) ∧
    ((SongsService.delete_song { db with historyFault := true } username song_id
        now).2 =
      (SongsService.delete_song { db with historyFault := false } username
        song_id now).2) ∧
    ((SongsService.get_song { db with historyFault := true } username song_id
        now).2 =
      (SongsService.get_song { db with historyFault := false } username song_id
        now).2) ∧
    ((PlaybackService.play_song { db with historyFault := true } username
        song_id now).2 =
      (PlaybackService.play_song { db with historyFault := false } username
        song_id now).2) := by
  intro db username title artist song_id genre year duration u now newId
  refine ⟨?_, ?_, ?_, ?_, ?_⟩
  · cases hm : mkSong title artist username genre year duration now now none with
    | error e => simp only [SongsService.add_song, hm]
    | ok song => simp only [SongsService.add_song, hm]
  · by_cases he : u.isEmpty = true
    · simp only [SongsService.update_song, he, if_true]
    · simp only [SongsService.update_song, he, if_false]
      cases hg : SongsDatabase.get_song_by_id db.songs username song_id with
      | error e => simp only [hg]; rfl
      | ok o =>
        cases o with
        | none => simp only [hg]; rfl
        | some original =>
          cases hu2 : SongsDatabase.update_song db.songs username song_id u now with
          | mk st2 r =>
            cases r with
            | error e => simp only [hg, hu2]; rfl
            | ok success =>
              cases success with
              | true => simp only [hg, hu2]; rfl
              | false => simp only [hg, hu2]; rfl
  · cases hd : SongsDatabase.delete_song db.songs username song_id with
    | mk st2 r =>
      cases r with
      | error e => simp only [SongsService.delete_song, hd]
      | ok o =>
        cases o with
        | none => simp only [SongsService.delete_song, hd]
        | some song => simp only [SongsService.delete_song, hd]
  · cases hg : SongsDatabase.get_song_by_id db.songs username song_id with
    | error e => simp only [SongsService.get_song, hg]
    | ok o =>
      cases o with
      | none => simp only [SongsService.get_song, hg]
      | some song => simp only [SongsService.get_song, hg]
  · cases hg : SongsDatabase.get_song_by_id db.songs username song_id with
    | error e =>
      simp only [PlaybackService.play_song, SongsService.get_song, hg]
    | ok o =>
      cases o with
      | none =>
        simp only [PlaybackService.play_song, SongsService.get_song, hg]
      | some song =>
        simp only [PlaybackService.play_song, SongsService.get_song, hg]

/-- Claim C5, as stated, is false on the code: the play use-case wraps its
whole body in a catch-all handler that returns `False`, so a repository
failure (here the invalid-identifier `DatabaseError` raised while looking
the record up) does not propagate from `play_song` — the same call that
makes the view use-case raise makes the play use-case return a normal
`false`. -/
theorem play_swallows_repository_failure :
    (SongsService.get_song ⟨[], [], false⟩ "u" "xyz" 0).2 =
      .error (.dbError ("Failed to get song: " ++
        ("Invalid song ID format: " ++ "xyz"))) ∧
    PlaybackService.play_song ⟨[], [], false⟩ "u" "xyz" 0 =
      (⟨[], [], false⟩, .ok false) := ⟨rfl, rfl⟩

/-- Claim C5 amended: the orchestration layer swallows audit-append failures
everywhere, and the play use-case additionally converts every failure into a
plain `false` return (it never raises); in the other use-cases a repository
failure propagates to the caller as a raised error (re-wrapped with the
use-case's message prefix — `delete` even stacks the repository's own prefix
twice). -/
theorem play_never_raises_but_others_propagate :
    ∀ (db : DB) (username song_id : String) (u : SongUpdate) (now : Nat),
    (∃ b, (PlaybackService.play_song db username song_id now).2 = .ok b) ∧
    (isValidObjectId song_id = false →
      ((SongsService.get_song db username song_id now).2 =
        .error (.dbError ("Failed to get song: " ++
          ("Invalid song ID format: " ++ song_id))) ∧
       (u.isEmpty = false →
        (SongsService.update_song db username song_id u now).2 =
          .error (.dbError ("Failed to update song: " ++
            ("Invalid song ID format: " ++ song_id)))) ∧
       (SongsService.delete_song db username song_id now).2 =
        .error (.dbError ("Failed to delete song: " ++
          ("Failed to delete song: " ++
            ("Invalid song ID format: " ++ song_id)))))) := by
  intro db username song_id u now
  constructor
  · cases hg : SongsDatabase.get_song_by_id db.songs username song_id with
    | error e =>
      exact ⟨false,
        by simp only [PlaybackService.play_song, SongsService.get_song, hg]⟩
    | ok o =>
      cases o with
      | none =>
        exact ⟨false,
          by simp only [PlaybackService.play_song, SongsService.get_song, hg]⟩
      | some song =>
        exact ⟨true,
          by simp only [PlaybackService.play_song, SongsService.get_song, hg]⟩
  · intro hv
    have hg : SongsDatabase.get_song_by_id db.songs username song_id =
        .error (.invalidIdFormat song_id) := by
      unfold SongsDatabase.get_song_by_id
      rw [if_neg]
      rw [hv]
      exact Bool.false_ne_true
    refine ⟨?_, ?_, ?_⟩
    · simp only [SongsService.get_song, hg, DbError.msg]
    · intro hu
      simp only [SongsService.update_song, hu, Bool.false_eq_true, if_false,
        hg, DbError.msg]
    · have hdel : SongsDatabase.delete_song db.songs username song_id =
          (db.songs, .error (.storeError ("Failed to delete song: " ++
            ("Invalid song ID format: " ++ song_id)))) := by
        simp only [SongsDatabase.delete_song, hg, DbError.msg]
      simp only [SongsService.delete_song, hdel, DbError.msg]

/-- Witness for the amended C5 at a concrete input: on the invalid
identifier "xyz", play returns a normal boolean while the view use-case
raises. -/
theorem play_never_raises_but_others_propagate_witness :
    (∃ b, (PlaybackService.play_song ⟨[docA], [], false⟩ "u" "xyz" 0).2 =
      .ok b) ∧
    (SongsService.get_song ⟨[docA], [], false⟩ "u" "xyz" 0).2 =
      .error (.dbError ("Failed to get song: " ++
        ("Invalid song ID format: " ++ "xyz"))) := by
  have h := play_never_raises_but_others_propagate ⟨[docA], [], false⟩ "u" "xyz"
    { title := some "a" } 0
  exact ⟨h.1, (h.2 rfl).1⟩

/-- Claim C6, as stated, is false on the code: the valid record whose title
is " a " (whitespace-padded, hence non-empty after trimming) serializes with
the title stripped, so deserializing yields a record with title "a" that
differs from the original in the `title` field, not merely in identifier
assignment. -/
theorem roundtrip_strips_padding :
    Song.validate songPad = .ok () ∧
    Song.from_dict (Song.to_dict songPad) = .ok songA ∧
    songA ≠ songPad := by
  refine ⟨rfl, rfl, ?_⟩
  intro h
  have : ("a" : String) = " a " := congrArg Song.title h
  simp at this

/-- Claim C6 amended: for valid records whose text fields are already
stripped (and whose genre, when present, is non-empty), serialization
followed by deserialization returns the record unchanged — identifier
included — and absent optional fields are omitted from the document form
rather than written as null. -/
theorem roundtrip_on_stripped_records :
    ∀ (s : Song),
    Song.validate s = .ok () →
    s.title.pyStrip = s.title → s.artist.pyStrip = s.artist →
    s.username.pyStrip = s.username →
    (s.genre = none ∨ ∃ g, s.genre = some g ∧ g ≠ "" ∧ g.pyStrip = g) →
    Song.from_dict (Song.to_dict s) = .ok s ∧
    (s.genre = none → (Song.to_dict s).genre = none) ∧
    (s.year = none → (Song.to_dict s).year = none) ∧
    (s.duration = none → (Song.to_dict s).duration = none) ∧
    (s.id = none → (Song.to_dict s).id = none) := by
  rintro ⟨t, a, un, g, y, dur, c, up, i⟩ hv ht ha hu hg
  dsimp only at ht ha hu hv
  have hdoc : Song.to_dict ⟨t, a, un, g, y, dur, c, up, i⟩ =
      { title := t, artist := a, username := un, created_at := c,
        updated_at := up, genre := g, year := y, duration := dur, id := i } := by
    unfold Song.to_dict
    dsimp only
    rw [ht, ha, hu]
    rcases hg with hg | ⟨g0, hg0, hne, hstr⟩
    · dsimp only at hg
      rw [hg]
    · dsimp only at hg0
      simp only [hg0]
      rw [if_neg hne, hstr]
  refine ⟨?_, ?_, ?_, ?_, ?_⟩
  · rw [hdoc]
    unfold Song.from_dict mkSong
    dsimp only
    rw [hv]
  · intro h
    rw [hdoc]
    exact h
  · intro h
    rw [hdoc]
    exact h
  · intro h
    rw [hdoc]
    exact h
  · intro h
    rw [hdoc]
    exact h

/-- Witness for the amended C6 at a concrete input: the stripped valid
record `songA` (all optional fields absent) round-trips to itself, and its
document form omits the absent optional fields. -/
theorem roundtrip_on_stripped_records_witness :
    Song.from_dict (Song.to_dict songA) = .ok songA ∧
    (Song.to_dict songA).genre = none ∧ (Song.to_dict songA).id = none := by
  have h := roundtrip_on_stripped_records songA rfl rfl rfl rfl (Or.inl rfl)
  exact ⟨h.1, h.2.1 rfl, h.2.2.2.2 rfl⟩

/-- Claim C7, as stated, is false on the code: `_validate` never compares
`updated_at` with `created_at`, so a record whose `updated_at` (0) precedes
its `created_at` (5) is constructed successfully instead of failing. -/
theorem construction_ignores_timestamp_order :
    (0 : Nat) < 5 ∧
    mkSong "a" "b" "u" none none none 5 0 none =
      .ok { title := "a", artist := "b", username := "u",
            created_at := 5, updated_at := 0 } := ⟨by decide, rfl⟩

/-- Claim C7 amended: construction fails with the `ValueError` exactly when
one of the checked invariants is violated — stripped title, artist or owner
empty, `year` outside [1000, 3000], or negative `duration` — and succeeds
whenever these hold, with no condition on the timestamps. -/
theorem construction_succeeds_iff_checked_invariants :
    ∀ (title artist username : String) (genre : Option String)
      (year duration : Option Int) (created_at updated_at : Nat)
      (id : Option String),
    (∃ s, mkSong title artist username genre year duration
        created_at updated_at id = .ok s) ↔
    (title.pyStrip ≠ "" ∧ artist.pyStrip ≠ "" ∧ username.pyStrip ≠ "" ∧
     (∀ y, year = some y → 1000 ≤ y ∧ y ≤ 3000) ∧
     (∀ dv, duration = some dv → 0 ≤ dv)) := by
  intro title artist username genre year duration created_at updated_at id
  rw [mkSong_ok_iff]
  exact validate_ok_iff _

/-- Witness for the amended C7 at a concrete input: the checked invariants
hold for ("a", "b", "u") with no optional fields, so construction succeeds
even with `updated_at` before `created_at`. -/
theorem construction_succeeds_iff_checked_invariants_witness :
    ∃ s, mkSong "a" "b" "u" none none none 5 0 none = .ok s := by
  apply (construction_succeeds_iff_checked_invariants "a" "b" "u" none none
    none 5 0 none).mpr
  refine ⟨by decide, by decide, by decide, ?_, ?_⟩
  · intro y hy
    cases hy
  · intro dv hd
    cases hd

/-- Claim C8, as stated, is false on the code for update and delete: on the
syntactically invalid identifier "xyz", `get_song_by_id` raises the distinct
invalid-format error, but `update_song` and `delete_song` reach the same
condition through their inner lookup, whose `DatabaseError` their broad
`except Exception` handlers re-wrap into the generic catch-all error — the
failure kind the spec calls `StoreError` — rather than the distinct
validation kind. -/
theorem invalid_id_rewrapped_by_update_delete :
    SongsDatabase.get_song_by_id [] "u" "xyz" =
      .error (.invalidIdFormat "xyz") ∧
    (SongsDatabase.update_song [] "u" "xyz" { title := some "a" } 0).2 =
      .error (.storeError ("Failed to update song: " ++
        ("Invalid song ID format: " ++ "xyz"))) ∧
    (SongsDatabase.delete_song [] "u" "xyz").2 =
      .error (.storeError ("Failed to delete song: " ++
        ("Invalid song ID format: " ++ "xyz"))) ∧
    DbError.storeError ("Failed to update song: " ++
      ("Invalid song ID format: " ++ "xyz")) ≠ .invalidIdFormat "xyz" := by
  refine ⟨rfl, rfl, rfl, ?_⟩
  intro h
  cases h

/-- Claim C8 amended: for every syntactically invalid identifier, `getById`
fails with the distinct invalid-identifier-format error, while `update` and
`delete` also fail but surface the failure re-wrapped as the generic
store-error kind carrying the use-case prefix around the invalid-format
message. -/
theorem invalid_id_failure_kinds :
    ∀ (st : Store) (username song_id : String) (u : SongUpdate) (now : Nat),
    isValidObjectId song_id = false →
    (SongsDatabase.get_song_by_id st username song_id =
      .error (.invalidIdFormat song_id) ∧
     (SongsDatabase.update_song st username song_id u now).2 =
      .error (.storeError ("Failed to update song: " ++
        ("Invalid song ID format: " ++ song_id))) ∧
     (SongsDatabase.delete_song st username song_id).2 =
      .error (.storeError ("Failed to delete song: " ++
        ("Invalid song ID format: " ++ song_id)))) := by
  intro st username song_id u now hv
  have hg : SongsDatabase.get_song_by_id st username song_id =
      .error (.invalidIdFormat song_id) := by
    unfold SongsDatabase.get_song_by_id
    rw [if_neg]
    rw [hv]
    exact Bool.false_ne_true
  refine ⟨hg, ?_, ?_⟩
  · simp only [SongsDatabase.update_song, hg, DbError.msg]
  · simp only [SongsDatabase.delete_song, hg, DbError.msg]

/-- Witness for the amended C8 at a concrete input: identifier "xyz" on the
empty store. -/
theorem invalid_id_failure_kinds_witness :
    SongsDatabase.get_song_by_id [] "u" "xyz" =
      .error (.invalidIdFormat "xyz") ∧
    (SongsDatabase.delete_song [] "u" "xyz").2 =
      .error (.storeError ("Failed to delete song: " ++
        ("Invalid song ID format: " ++ "xyz"))) := by
  have h := invalid_id_failure_kinds [] "u" "xyz" { title := some "a" } 0 rfl
  exact ⟨h.1, h.2.2⟩

/-- Claim C9 confirmed: listing with an explicitly empty-string owner is the
same operation as listing with the owner absent — the empty string is falsy,
so no owner filter is applied and no `ValidationError` is raised; the result
covers the whole store (same length as the store when deserialization
succeeds) and is ordered by `created_at` descending. -/
theorem list_empty_owner_means_all_owners :
    ∀ (st : Store) (limit : Option Nat),
    SongsDatabase.get_songs st (some "") limit =
      SongsDatabase.get_songs st none limit ∧
    (∀ l, SongsDatabase.get_songs st (some "") none = .ok l →
      l.length = st.length ∧
      l.Pairwise (fun s1 s2 => s2.created_at ≤ s1.created_at)) := by
  intro st limit
  constructor
  · rfl
  · intro l hl
    have hfd : fromDictList (sortByCreatedDesc st) = .ok l := by
      rw [show SongsDatabase.get_songs st (some "") none =
        SongsDatabase.get_songs st none none from rfl] at hl
      unfold SongsDatabase.get_songs at hl
      dsimp only at hl
      cases hf : fromDictList (sortByCreatedDesc st) with
      | ok songs => rw [hf] at hl; cases hl; rfl
      | error e => rw [hf] at hl; cases hl
    have hmap := fromDictList_created _ _ hfd
    constructor
    · have hlen := congrArg List.length hmap
      simp only [List.length_map] at hlen
      rw [hlen, sortByCreatedDesc_length]
    · have hp := sortByCreatedDesc_pairwise st
      have hp2 : ((sortByCreatedDesc st).map (fun d => d.created_at)).Pairwise
          (fun a b => b ≤ a) := List.pairwise_map.mpr hp
      rw [← hmap] at hp2
      exact List.pairwise_map.mp hp2

/-- Witness for C9 at a concrete input: a two-owner store listed with the
empty-string owner returns both records, newest first. -/
theorem list_empty_owner_means_all_owners_witness :
    SongsDatabase.get_songs [docA, docC] (some "") none =
      SongsDatabase.get_songs [docA, docC] none none ∧
    SongsDatabase.get_songs [docA, docC] (some "") none =
      .ok [songCView, songAView] ∧
    ([songCView, songAView].length = ([docA, docC] : Store).length ∧
     ([songCView, songAView] : List Song).Pairwise
       (fun s1 s2 => s2.created_at ≤ s1.created_at)) := by
  have h := list_empty_owner_means_all_owners [docA, docC] none
  exact ⟨h.1, rfl, h.2 [songCView, songAView] rfl⟩

/-- Claim C10 confirmed: whenever the update use-case returns `true`, the
audit entry it appends has action "updated" and carries the title and artist
of the record as fetched BEFORE the repository update ran — the pre-update
snapshot — even if the update changed those fields. Stated for stripped
pre-update fields (every record the repository itself persisted is stored
stripped) and a non-empty owner, with no audit fault injected. -/
theorem update_audit_logs_preupdate_snapshot :
    ∀ (db : DB) (username song_id : String) (u : SongUpdate) (now : Nat)
      (orig : Song),
    SongsDatabase.get_song_by_id db.songs username song_id = .ok (some orig) →
    db.historyFault = false →
    username.pyStrip = username → username ≠ "" →
    orig.title.pyStrip = orig.title → orig.artist.pyStrip = orig.artist →
    (SongsService.update_song db username song_id u now).2 = .ok true →
    (SongsService.update_song db username song_id u now).1.history =
      db.history ++ [{ username := username, action := "updated",
                       song_title := orig.title, song_artist := orig.artist,
                       timestamp := now, id := none }] := by
  intro db username song_id u now orig hg hfault hstru hne htte harr hsucc
  have he : u.isEmpty = false := by
    cases hcase : u.isEmpty with
    | false => rfl
    | true =>
      simp only [SongsService.update_song, hcase, if_true] at hsucc
      simp at hsucc
  cases hu2 : SongsDatabase.update_song db.songs username song_id u now with
  | mk st2 r =>
    cases r with
    | error e =>
      simp only [SongsService.update_song, he, Bool.false_eq_true, if_false,
        hg, hu2] at hsucc
      simp at hsucc
    | ok success =>
      cases success with
      | false =>
        simp only [SongsService.update_song, he, Bool.false_eq_true, if_false,
          hg, hu2] at hsucc
        simp at hsucc
      | true =>
        have hmk : mkHistoryEntry username "updated" orig.title orig.artist now
            = .ok { username := username, action := "updated",
                    song_title := orig.title, song_artist := orig.artist,
                    timestamp := now, id := none } := by
          have hc1 : ¬((username = "" || username.pyStrip = "") = true) := by
            rw [hstru]
            simp [hne]
          have hc2 : ¬((("updated" : String) = "" ||
              ("updated" : String).pyStrip = "") = true) := by decide
          unfold mkHistoryEntry HistoryEntry.validate
          dsimp only
          rw [if_neg hc1, if_neg hc2]
        have hres : (SongsService.update_song db username song_id u now).1 =
            SongsService.log_history { db with songs := st2 } username
              "updated" orig.title orig.artist now := by
          simp only [SongsService.update_song, he, Bool.false_eq_true,
            if_false, hg, hu2]
          rfl
        rw [hres]
        rw [log_history_append { db with songs := st2 } username "updated"
          orig.title orig.artist now _ hmk (by dsimp only; exact hfault)]
        dsimp only
        unfold HistoryEntry.to_dict
        dsimp only
        rw [hstru, htte, harr,
          show ("updated" : String).pyStrip = "updated" from rfl]

/-- Witness for C10 at a concrete input: updating `docA`'s title to "X"
returns `true` and appends an "updated" entry carrying the OLD title "a" and
artist "b". -/
theorem update_audit_logs_preupdate_snapshot_witness :
    (SongsService.update_song ⟨[docA], [], false⟩ "u" vId1
        { title := some "X" } 1).2 = .ok true ∧
    (SongsService.update_song ⟨[docA], [], false⟩ "u" vId1
        { title := some "X" } 1).1.history =
      [] ++ [{ username := "u", action := "updated", song_title := "a",
               song_artist := "b", timestamp := 1, id := none }] := by
  refine ⟨rfl, ?_⟩
  exact update_audit_logs_preupdate_snapshot ⟨[docA], [], false⟩ "u" vId1
    { title := some "X" } 1 songAView rfl rfl rfl (by decide) rfl rfl rfl
